import Mathlib

/-!
# Verification of `src/evaluate_topomaps.py` (ANN-topomaps)

A shallow embedding of the topographic-map image-quality pipeline:

* `topomap_rescale` / `topomap_blur` — the two degradation operators;
* `topomap_mse` — per-image MSE curve computation (with optional figure export);
* `compute_topomap_image_quality` — dataset aggregation with optional AUC.

Library calls that live outside the repository are modelled by their documented
behaviour:

* `PIL.Image.resize` / `PIL.ImageFilter.GaussianBlur` are fields of a `PILOps`
  record (resize is fallible: PIL raises on a non-positive target size);
* `pdf2image.convert_from_path(...)[0]` is a parameter
  `convert_from_path : String → Option PILImage` (first page of a readable
  document, `none` for an unreadable path);
* `os.listdir` is a parameter `listdir : String → List String`;
* `numpy` arrays obtained from `np.asarray(PIL image)` carry dtype `uint8`, so
  `np.square(a - b)` wraps modulo 256 in both the subtraction and the square;
  `ndarray.mean()` is an exact rational mean;
* `sklearn.metrics.auc` checks for at least two points and a monotone x-axis,
  then returns the trapezoidal integral `np.trapz(y, x)`;
* `matplotlib.pyplot.subplots(1, n)` squeezes a 1×1 grid to a bare `Axes`
  object, so the `axes[0]` indexing in the source fails when `n = 1`.

Failure (a Python exception) is modelled by `Option`: `none` means the call
raises.
-/

namespace ANNTopomaps

/-! ## numpy uint8 arithmetic -/

/-- numpy `uint8` subtraction: `(a - b) mod 256` (wraparound), for byte
operands. -/
def u8sub (a b : Nat) : Nat := (a % 256 + 256 - b % 256) % 256

/-- numpy `np.square` on a `uint8` value: the square wraps modulo 256. -/
def u8square (x : Nat) : Nat := x ^ 2 % 256

/-- The elementwise `np.square(a - b)` of two same-shaped `uint8` arrays,
as the source's `np.square(arr_img - arr_img_changed)` computes it. -/
def u8sqDiff (xs ys : List Nat) : List Nat :=
  List.zipWith (fun a b => u8square (u8sub a b)) xs ys

/-- `ndarray.mean()`: the mean over all entries, as an exact rational
(float64 sums of byte arrays of realistic size are exact). -/
def npMean (xs : List Nat) : ℚ := (xs.sum : ℚ) / xs.length

/-- The mean over all entries of the true (un-wrapped) elementwise squared
difference `(reference − degraded)²`: the MSE as the specification defines it. -/
def mseSpec (xs ys : List Nat) : ℚ :=
  ((List.zipWith (fun a b => (((a : Int) - (b : Int)) ^ 2 : Int)) xs ys).sum : ℚ) / xs.length

/-! ## Images and external library interfaces -/

/-- A numpy `ndarray`: its shape and its flattened `uint8` data. -/
structure NDArr where
  shape : List Int
  data : List Nat
deriving DecidableEq, Repr

/-- A PIL image: its dimensions and the flattened pixel data `np.asarray`
reads out of it. -/
structure PILImage where
  width : Int
  height : Int
  pix : List Nat
deriving DecidableEq, Repr

/-- PIL's `img.size` attribute: the pair `(width, height)`. -/
def PILImage.size (img : PILImage) : Int × Int := (img.width, img.height)

/-- `np.asarray` on an RGB PIL image: an array of shape `(height, width, 3)`
whose data is the image's pixels. -/
def asarray (img : PILImage) : NDArr :=
  { shape := [img.height, img.width, 3], data := img.pix }

/-- The PIL operations the source calls; `resize` is fallible because PIL
raises `ValueError` on a non-positive target size. -/
structure PILOps where
  resize : PILImage → Int × Int → Option PILImage
  gaussianBlur : PILImage → Int → PILImage

/-- PIL's documented failure mode for `Image.resize`: it raises exactly when a
requested dimension is non-positive. -/
def ResizeFailsIffNonpos (ops : PILOps) : Prop :=
  ∀ img w h, ops.resize img (w, h) = none ↔ w ≤ 0 ∨ h ≤ 0

/-- PIL's documented size contract for `Image.resize`: a successful resize
returns an image of exactly the requested dimensions. -/
def ResizeGivesRequestedSize (ops : PILOps) : Prop :=
  ∀ img w h out, ops.resize img (w, h) = some out → out.width = w ∧ out.height = h

/-- PIL's documented size contract for `Image.filter(GaussianBlur r)`: the
output has the input's dimensions. -/
def BlurPreservesSize (ops : PILOps) : Prop :=
  ∀ img r, (ops.gaussianBlur img r).width = img.width
    ∧ (ops.gaussianBlur img r).height = img.height

/-! ## The degradation operators (`topomap_rescale`, `topomap_blur`) -/

/-- `topomap_rescale(img, shrink_size)`: rescales the level internally
(`shrink_size = 55 - (shrink_size * 5)`), resizes to the square target, resizes
back to the original size and materializes the result with `np.asarray`. -/
def topomap_rescale (ops : PILOps) (img : PILImage) (shrink_size : Int) :
    Option NDArr :=
  let shrink_size := 55 - shrink_size * 5
  (ops.resize img (shrink_size, shrink_size)).bind fun res_img =>
    (ops.resize res_img img.size).map fun res_img_big => asarray res_img_big

/-- `topomap_blur(img, radius)`: rescales the level internally
(`radius = (radius * 2) + 2`), applies `GaussianBlur` and materializes the
result with `np.asarray`.  (Stated in `Option` for uniformity with
`topomap_rescale`: blurring itself never raises.) -/
def topomap_blur (ops : PILOps) (img : PILImage) (radius : Int) : Option NDArr :=
  let radius := radius * 2 + 2
  some (asarray (ops.gaussianBlur img radius))

/-! ## Per-image MSE curve (`topomap_mse`) -/

/-- Python's `str.split("/")` on a character list (always non-empty output). -/
def pySplitSlash (s : List Char) : List (List Char) :=
  s.foldr
    (fun c acc => match acc with
      | [] => [[c]]
      | cur :: rest => if c = '/' then [] :: cur :: rest else (c :: cur) :: rest)
    [[]]

/-- `image_path.split("/")[-1]`: the final path component. -/
def pyBasename (path : String) : List Char := (pySplitSlash path.toList).getLastD []

/-- `s[:-4]`: all but the last four characters (empty when `s` is shorter). -/
def pyDropLast4 (s : List Char) : List Char := s.take (s.length - 4)

/-- The saved figure's file name:
`image_path.split("/")[-1][:-4] + "_" + metric + ".pdf"`. -/
def savedFigName (image_path metric : String) : String :=
  String.mk (pyDropLast4 (pyBasename image_path)) ++ "_" ++ metric ++ ".pdf"

/-- A figure written by `fig.savefig`: the output directory it goes to, its
file name there, and the image panels drawn on its axes, in axes order. -/
structure SavedFig where
  dir : String
  name : String
  panels : List NDArr
deriving DecidableEq, Repr

/-- Sequential effectful map over a list (the source's `for` loop): the first
raising iteration aborts the whole computation. -/
def optionMapList {α β : Type} (f : α → Option β) : List α → Option (List β)
  | [] => some []
  | a :: l => (f a).bind fun b => (optionMapList f l).map fun r => b :: r

/-- `topomap_mse(image_path, metric, params, output_dir)`: load the first page
of the document at `image_path`, and for each level in `params`, in order,
apply the operator selected by `metric` and record the mean of
`np.square(arr_img - arr_img_changed)` (uint8 arithmetic).  Returns the error
list together with the figures saved (one figure when `output_dir` is given,
holding the reference panel followed by one degraded panel per level).

Failure points, in source order: an unreadable path; the `axes[0]` indexing
when `output_dir` is given and `params` is empty (`plt.subplots(1, 1)` returns
a bare `Axes`); calling the still-`None` operator on an unrecognized metric at
the first loop iteration; a `resize` error inside the operator. -/
def topomap_mse (convert_from_path : String → Option PILImage) (ops : PILOps)
    (image_path metric : String) (params : List Int) (output_dir : Option String) :
    Option (List ℚ × List SavedFig) :=
  match convert_from_path image_path with
  | none => none
  | some img =>
    let arr_img := asarray img
    if output_dir.isSome && params.isEmpty then none
    else
      let img_manipulation_fn : Option (PILImage → Int → Option NDArr) :=
        if metric = "resize_mse" then some (topomap_rescale ops)
        else if metric = "blur_mse" then some (topomap_blur ops)
        else none
      match optionMapList
          (fun param =>
            (img_manipulation_fn.bind fun fn => fn img param).map
              fun arr_img_changed =>
                (npMean (u8sqDiff arr_img.data arr_img_changed.data), arr_img_changed))
          params with
      | none => none
      | some step =>
        let errs := step.map Prod.fst
        let saved : List SavedFig :=
          match output_dir with
          | none => []
          | some d =>
            [{ dir := d, name := savedFigName image_path metric,
               panels := arr_img :: step.map Prod.snd }]
        some (errs, saved)

/-! ## Dataset aggregation (`compute_topomap_image_quality`) -/

/-- `np.diff`: successive differences. -/
def npDiff (x : List ℚ) : List ℚ := (x.zip x.tail).map fun p => p.2 - p.1

/-- `np.trapz(y, x)`: the trapezoidal-rule integral of `y` over `x`. -/
def npTrapz (y x : List ℚ) : ℚ :=
  (List.zipWith (fun xp yp => (xp.2 - xp.1) * (yp.1 + yp.2) / 2)
    (x.zip x.tail) (y.zip y.tail)).sum

/-- `sklearn.metrics.auc(x, y)`: raises when `x` has fewer than two points or
is not monotone; otherwise the (sign-corrected) trapezoidal integral. -/
def sklearn_auc (x y : List ℚ) : Option ℚ :=
  if x.length < 2 then none
  else
    let dx := npDiff x
    if dx.all fun d => decide (0 ≤ d) then some (npTrapz y x)
    else if dx.all fun d => decide (d ≤ 0) then some (-npTrapz y x)
    else none

/-- `np.arange(n)` as rationals. -/
def arangeQ (n : Nat) : List ℚ := (List.range n).map fun i : Nat => (i : ℚ)

/-- `np.mean(rows, axis=0)` on a non-empty stack of equal-length rows: the
elementwise column mean.  (The source's `list(np.mean(...))` is only reached
with at least one row; see `compute_topomap_image_quality`.) -/
def npMeanAxis0 (rows : List (List ℚ)) : List ℚ :=
  match rows with
  | [] => []
  | r :: _ =>
    (List.range r.length).map fun j =>
      (rows.map fun row => row.getD j 0).sum / rows.length

/-- `compute_topomap_image_quality(image_dir, metric, params, return_auc,
output_dir)`: run `topomap_mse` on every directory entry (any failure aborts
the whole call), average the error curves columnwise, and, when `return_auc`,
append `auc(np.arange(len(quality_values)), quality_values)`.

An empty directory is a failure: `np.mean` of an empty stack is a bare NaN
scalar and the source's `list(...)` call raises on it. -/
def compute_topomap_image_quality (convert_from_path : String → Option PILImage)
    (ops : PILOps) (listdir : String → List String) (image_dir metric : String)
    (params : List Int) (return_auc : Bool) (output_dir : Option String) :
    Option (List ℚ × List SavedFig) :=
  let image_paths := listdir image_dir
  (optionMapList
      (fun image_path =>
        topomap_mse convert_from_path ops (image_dir ++ "/" ++ image_path)
          metric params output_dir)
      image_paths).bind fun results =>
    let group_errors := results.map Prod.fst
    if group_errors.isEmpty then none
    else
      let quality_values := npMeanAxis0 group_errors
      (if return_auc then
          (sklearn_auc (arangeQ quality_values.length) quality_values).map
            fun mse_auc => quality_values ++ [mse_auc]
        else some quality_values).map
        fun quality_values => (quality_values, (results.map Prod.snd).flatten)

/-! ## Concrete instances

Small concrete `PILOps` / image / directory instances used to evaluate the
pipeline on explicit inputs.  `toyOps.resize` follows PIL's contract (fails
exactly on a non-positive target, returns the requested dimensions) and
transforms pixel data by a table keyed on the target width, so that the two
rescale targets the levels 0 and 1 produce (55 and 50) yield controlled
degraded arrays. -/

def toyShrinkPix (target : Int) (pix : List Nat) : List Nat :=
  if target = 55 then
    if pix = [10, 20] then [12, 20]
    else if pix = [10, 20, 30] then [13, 23, 30]
    else if pix = [0, 0, 0] then [16, 16, 16]
    else if pix = [100, 100, 100] then [116, 132, 148]
    else pix
  else if target = 50 then
    if pix = [10, 20] then [12, 22]
    else if pix = [10, 20, 30] then [14, 22, 32]
    else pix
  else pix

def toyOps : PILOps where
  resize img sz :=
    if sz.1 ≤ 0 ∨ sz.2 ≤ 0 then none
    else some { width := sz.1, height := sz.2, pix := toyShrinkPix sz.1 img.pix }
  gaussianBlur img r :=
    { width := img.width, height := img.height,
      pix := img.pix.map fun v => (v + r.toNat) % 256 }

def imgA : PILImage := { width := 2, height := 1, pix := [10, 20] }
def imgB : PILImage := { width := 3, height := 1, pix := [10, 20, 30] }
def imgOne : PILImage := { width := 3, height := 1, pix := [0, 0, 0] }
def imgTwo : PILImage := { width := 3, height := 1, pix := [100, 100, 100] }

def toyConvert (path : String) : Option PILImage :=
  if path = "imgs/A.pdf" then some imgA
  else if path = "imgs/B.pdf" then some imgB
  else if path = "one.pdf" then some imgOne
  else if path = "two.pdf" then some imgTwo
  else none

def toyListdir : String → List String := fun _ => ["A.pdf", "B.pdf"]

/-- The curves `topomap_mse` produces for the two directory images under
`resize_mse` with levels `[0, 1]`. -/
def toyCurve (p : String) : List ℚ := if p = "A.pdf" then [2, 4] else [6, 8]

def toyFigList : String → List SavedFig := fun _ => []

lemma toyConvert_joinA : toyConvert ("imgs" ++ "/" ++ "A.pdf") = some imgA := by decide

lemma toyConvert_joinB : toyConvert ("imgs" ++ "/" ++ "B.pdf") = some imgB := by decide

lemma toyConvert_One : toyConvert "one.pdf" = some imgOne := by decide

lemma toyConvert_Two : toyConvert "two.pdf" = some imgTwo := by decide

lemma toy_mse_A2 :
    topomap_mse toyConvert toyOps ("imgs" ++ "/" ++ "A.pdf") "resize_mse" [0, 1] none
      = some ([2, 4], []) := by
  rw [topomap_mse, toyConvert_joinA]
  norm_num [toyOps, topomap_rescale, asarray, imgA, PILImage.size,
    optionMapList, toyShrinkPix, u8sqDiff, u8square, u8sub, npMean]

lemma toy_mse_B2 :
    topomap_mse toyConvert toyOps ("imgs" ++ "/" ++ "B.pdf") "resize_mse" [0, 1] none
      = some ([6, 8], []) := by
  rw [topomap_mse, toyConvert_joinB]
  norm_num [toyOps, topomap_rescale, asarray, imgB, PILImage.size,
    optionMapList, toyShrinkPix, u8sqDiff, u8square, u8sub, npMean]

lemma toy_mse_A1 :
    topomap_mse toyConvert toyOps ("imgs" ++ "/" ++ "A.pdf") "resize_mse" [0] none
      = some ([2], []) := by
  rw [topomap_mse, toyConvert_joinA]
  norm_num [toyOps, topomap_rescale, asarray, imgA, PILImage.size,
    optionMapList, toyShrinkPix, u8sqDiff, u8square, u8sub, npMean]

lemma toy_mse_B1 :
    topomap_mse toyConvert toyOps ("imgs" ++ "/" ++ "B.pdf") "resize_mse" [0] none
      = some ([6], []) := by
  rw [topomap_mse, toyConvert_joinB]
  norm_num [toyOps, topomap_rescale, asarray, imgB, PILImage.size,
    optionMapList, toyShrinkPix, u8sqDiff, u8square, u8sub, npMean]

lemma toy_mse_One :
    topomap_mse toyConvert toyOps "one.pdf" "resize_mse" [0] none = some ([0], []) := by
  rw [topomap_mse, toyConvert_One]
  norm_num [toyOps, topomap_rescale, asarray, imgOne, PILImage.size,
    optionMapList, toyShrinkPix, u8sqDiff, u8square, u8sub, npMean]

lemma toy_mse_Two :
    topomap_mse toyConvert toyOps "two.pdf" "resize_mse" [0] none = some ([0], []) := by
  rw [topomap_mse, toyConvert_Two]
  norm_num [toyOps, topomap_rescale, asarray, imgTwo, PILImage.size,
    optionMapList, toyShrinkPix, u8sqDiff, u8square, u8sub, npMean]

lemma toy_mse_One_fig :
    topomap_mse toyConvert toyOps "one.pdf" "resize_mse" [0] (some "out")
      = some ([0], [⟨"out", "one_resize_mse.pdf", [asarray imgOne, ⟨[1, 3, 3], [16, 16, 16]⟩]⟩]) := by
  have hname : savedFigName "one.pdf" "resize_mse" = "one_resize_mse.pdf" := by decide
  rw [topomap_mse, toyConvert_One]
  norm_num [toyOps, topomap_rescale, asarray, imgOne, PILImage.size,
    optionMapList, toyShrinkPix, u8sqDiff, u8square, u8sub, npMean, hname]

lemma toyOps_resize_fails : ResizeFailsIffNonpos toyOps := by
  intro img w h
  by_cases hc : w ≤ 0 ∨ h ≤ 0 <;> simp [toyOps, hc]

lemma toyOps_resize_size : ResizeGivesRequestedSize toyOps := by
  intro img w h out hout
  by_cases hc : w ≤ 0 ∨ h ≤ 0 <;> simp [toyOps, hc] at hout
  simp [← hout]

lemma toyOps_blur_size : BlurPreservesSize toyOps := by
  intro img r
  simp [toyOps]

/-! ## Helper lemmas -/

lemma optionMapList_eq_map {α β : Type} (f : α → Option β) (g : α → β) :
    ∀ l : List α, (∀ x ∈ l, f x = some (g x)) → optionMapList f l = some (l.map g) := by
  intro l h
  induction l with
  | nil => rfl
  | cons a t ih =>
    simp only [optionMapList, h a (by simp), List.map_cons, Option.some_bind]
    rw [ih fun x hx => h x (by simp [hx])]
    rfl

lemma length_of_optionMapList {α β : Type} (f : α → Option β) :
    ∀ (l : List α) (r : List β), optionMapList f l = some r → r.length = l.length := by
  intro l
  induction l with
  | nil => intro r h; simp [optionMapList] at h; simp [← h]
  | cons a t ih =>
    intro r h
    simp only [optionMapList] at h
    cases hfa : f a with
    | none => simp [hfa] at h
    | some b =>
      cases ht : optionMapList f t with
      | none => simp [hfa, ht] at h
      | some rt =>
        simp only [hfa, ht, Option.some_bind, Option.map_some', Option.some.injEq] at h
        simp [← h, ih rt ht]

lemma npDiff_cons_cons (a b : ℚ) (t : List ℚ) :
    npDiff (a :: b :: t) = (b - a) :: npDiff (b :: t) := by
  simp [npDiff]

lemma npDiff_consecutive (n : Nat) : ∀ k : Nat,
    npDiff (List.map (fun i : Nat => (i : ℚ)) (List.range' k (n + 1))) = List.replicate n 1 := by
  induction n with
  | zero => intro k; simp [npDiff, List.range'_one]
  | succ m ih =>
    intro k
    rw [List.range'_succ k (m + 1) 1, List.range'_succ (k + 1) m 1, List.map_cons, List.map_cons,
      npDiff_cons_cons, ← List.map_cons (fun i : Nat => (i : ℚ)), ← List.range'_succ (k + 1) m 1,
      ih (k + 1)]
    have hc : ((k + 1 : Nat) : ℚ) - (k : Nat) = 1 := by push_cast; ring
    rw [hc, List.replicate_succ]

lemma npDiff_arangeQ (n : Nat) : npDiff (arangeQ n) = List.replicate (n - 1) 1 := by
  cases n with
  | zero => simp [arangeQ, npDiff]
  | succ m =>
    rw [arangeQ, List.range_eq_range' (m + 1)]
    simpa using npDiff_consecutive m 0

lemma sklearn_auc_arangeQ (n : Nat) (q : List ℚ) (hn : 2 ≤ n) :
    sklearn_auc (arangeQ n) q = some (npTrapz q (arangeQ n)) := by
  rw [sklearn_auc]
  have hlen : (arangeQ n).length = n := by simp [arangeQ]
  rw [if_neg (by omega : ¬(arangeQ n).length < 2)]
  have hall : (npDiff (arangeQ n)).all (fun d => decide (0 ≤ d)) = true := by
    rw [npDiff_arangeQ, List.all_eq_true]
    intro d hd
    rw [List.eq_of_mem_replicate hd]
    exact decide_eq_true (by norm_num)
  rw [if_pos hall]

lemma npMeanAxis0_length (rows : List (List ℚ)) (n : Nat)
    (hne : rows ≠ []) (h : ∀ r ∈ rows, r.length = n) :
    (npMeanAxis0 rows).length = n := by
  cases rows with
  | nil => cases hne rfl
  | cons r t => simp [npMeanAxis0, h r (by simp)]

lemma npMeanAxis0_getD (rows : List (List ℚ)) (n : Nat)
    (hne : rows ≠ []) (h : ∀ r ∈ rows, r.length = n) (j : Nat) (hj : j < n) :
    (npMeanAxis0 rows).getD j 0 = (rows.map fun row => row.getD j 0).sum / rows.length := by
  cases rows with
  | nil => cases hne rfl
  | cons r t =>
    have hr : r.length = n := h r (by simp)
    simp only [npMeanAxis0, hr]
    have h1 : ∀ (g : Nat → ℚ),
        ((List.range n).map g).getD j 0 = ((List.range n)[j]?.map g).getD 0 := by
      intro g; simp [List.getD]
    rw [h1, List.getElem?_range hj]
    rfl

lemma pyDropLast4_append_pdf (s : List Char) :
    pyDropLast4 (s ++ ['.', 'p', 'd', 'f']) = s := by
  simp only [pyDropLast4, List.length_append, List.length_cons, List.length_nil]
  have h4 : s.length + 4 - 4 = s.length := by omega
  simp [h4, List.take_left]

/-- `topomap_rescale` written with the internally rescaled level on the
canonical form `55 - 5·level`. -/
lemma topomap_rescale_eq (ops : PILOps) (img : PILImage) (level : Int) :
    topomap_rescale ops img level
      = (ops.resize img (55 - 5 * level, 55 - 5 * level)).bind
          fun res_img => (ops.resize res_img img.size).map asarray := by
  have h1 : (55 : Int) - level * 5 = 55 - 5 * level := by ring
  rw [topomap_rescale]
  rw [h1]

/-- `topomap_blur` written with the internally rescaled radius on the
canonical form `2·level + 2`. -/
lemma topomap_blur_eq (ops : PILOps) (img : PILImage) (level : Int) :
    topomap_blur ops img level = some (asarray (ops.gaussianBlur img (2 * level + 2))) := by
  have h2 : level * 2 + 2 = 2 * level + 2 := by ring
  rw [topomap_blur]
  rw [h2]

/-! ## The claims -/

/-- Claim C1.  The claim says each returned MSE equals the mean of the true
elementwise squared difference `(reference − degraded)²`.  The code computes
`np.square(arr_img - arr_img_changed).mean()` on `uint8` arrays, where both
the difference and the square wrap modulo 256: on the 1×1 image whose
reference array is `[0, 0, 0]` and whose level-0 rescale-degraded array is
`[16, 16, 16]`, the code returns the MSE curve `[0]`, while the specified
mean squared difference is `256`. -/
theorem topomap_mse_uint8_overflow :
    topomap_mse toyConvert toyOps "one.pdf" "resize_mse" [0] none = some ([0], [])
    ∧ (topomap_rescale toyOps imgOne 0).map NDArr.data = some [16, 16, 16]
    ∧ imgOne.pix = [0, 0, 0]
    ∧ mseSpec [0, 0, 0] [16, 16, 16] = 256 := by
  refine ⟨toy_mse_One, ?_, rfl, by norm_num [mseSpec]⟩
  norm_num [toyOps, topomap_rescale, asarray, imgOne, PILImage.size, toyShrinkPix]

/-- Claim C4.  The computed MSE is always non-negative, but it is not true
that MSE 0 forces the degraded array to be pixel-identical to the reference:
on the image `[100, 100, 100]` whose degraded array is `[116, 132, 148]`
(differences 16, 32, 48, whose squares 256, 1024, 2304 are all ≡ 0 mod 256),
the uint8 computation returns MSE 0 although the arrays differ. -/
theorem mse_zero_for_nonidentical_arrays :
    (∀ xs ys : List Nat, 0 ≤ npMean (u8sqDiff xs ys))
    ∧ topomap_mse toyConvert toyOps "two.pdf" "resize_mse" [0] none = some ([0], [])
    ∧ (topomap_rescale toyOps imgTwo 0).map NDArr.data = some [116, 132, 148]
    ∧ imgTwo.pix = [100, 100, 100]
    ∧ ([100, 100, 100] : List Nat) ≠ [116, 132, 148] := by
  refine ⟨?_, toy_mse_Two, ?_, rfl, by decide⟩
  · intro xs ys
    unfold npMean
    positivity
  · norm_num [toyOps, topomap_rescale, asarray, imgTwo, PILImage.size, toyShrinkPix]

/-- Claim C3: both degradation operators rescale the level internally —
the downscale-upscale operator resizes to the square target `55 − 5·level`
and then back to the original size, and the blur operator passes radius
`2·level + 2` to `GaussianBlur`. -/
theorem operators_rescale_level_internally (ops : PILOps) (img : PILImage) (level : Int) :
    (topomap_rescale ops img level
      = (ops.resize img (55 - 5 * level, 55 - 5 * level)).bind
          fun res_img => (ops.resize res_img img.size).map asarray)
    ∧ topomap_blur ops img level = some (asarray (ops.gaussianBlur img (2 * level + 2))) :=
  ⟨topomap_rescale_eq ops img level, topomap_blur_eq ops img level⟩

/-- Claim C6: an unrecognized metric name leaves the operator unset without
failing at selection time; the call fails exactly when the unset operator is
first invoked, i.e. on any non-empty level list, while an empty level list
succeeds (shown without figure export, whose empty-grid failure is independent
of the metric). -/
theorem unknown_metric_fails_on_first_use (convert : String → Option PILImage) (ops : PILOps)
    (image_path metric : String) (img : PILImage)
    (hconv : convert image_path = some img)
    (hm1 : metric ≠ "resize_mse") (hm2 : metric ≠ "blur_mse") :
    (∀ (params : List Int) (output_dir : Option String), params ≠ [] →
        topomap_mse convert ops image_path metric params output_dir = none)
    ∧ topomap_mse convert ops image_path metric [] none = some ([], []) := by
  constructor
  · intro params output_dir hp
    cases params with
    | nil => cases hp rfl
    | cons p ps =>
      simp [topomap_mse, hconv, hm1, hm2, optionMapList]
  · simp [topomap_mse, hconv, hm1, hm2, optionMapList]

theorem unknown_metric_fails_on_first_use_witness :
    (∀ (params : List Int) (output_dir : Option String), params ≠ [] →
        topomap_mse toyConvert toyOps "one.pdf" "ssim" params output_dir = none)
    ∧ topomap_mse toyConvert toyOps "one.pdf" "ssim" [] none = some ([], []) :=
  unknown_metric_fails_on_first_use toyConvert toyOps "one.pdf" "ssim" imgOne toyConvert_One
    (by decide) (by decide)

/-- Claim C10: with a readable image, an empty level list and no output
directory, `topomap_mse` returns an empty error sequence without ever
dispatching a degradation operator — for any metric name whatsoever. -/
theorem empty_levels_empty_result (convert : String → Option PILImage) (ops : PILOps)
    (image_path metric : String) (img : PILImage)
    (hconv : convert image_path = some img) :
    topomap_mse convert ops image_path metric [] none = some ([], []) := by
  simp [topomap_mse, hconv, optionMapList]

theorem empty_levels_empty_result_witness :
    topomap_mse toyConvert toyOps "two.pdf" "bogus_metric" [] none = some ([], []) :=
  empty_levels_empty_result toyConvert toyOps "two.pdf" "bogus_metric" imgTwo toyConvert_Two

/-- Claim C7: for a level ≥ 11 the internally computed target `55 − 5·level`
is ≤ 0 and the rescale operator fails (PIL's resize raises on a non-positive
size, the operator performs no validation of its own); for a level whose
target is positive the resize-failure branch is unreachable on a genuine
(positive-dimension) image. -/
theorem rescale_fails_iff_level_out_of_range (ops : PILOps) (img : PILImage) (level : Int)
    (hops : ResizeFailsIffNonpos ops) (hw : 0 < img.width) (hh : 0 < img.height) :
    (11 ≤ level → 55 - 5 * level ≤ 0 ∧ topomap_rescale ops img level = none)
    ∧ (0 < 55 - 5 * level → topomap_rescale ops img level ≠ none) := by
  constructor
  · intro h11
    have ht : (55 : Int) - 5 * level ≤ 0 := by omega
    refine ⟨ht, ?_⟩
    rw [topomap_rescale_eq]
    rw [(hops img (55 - 5 * level) (55 - 5 * level)).mpr (Or.inl ht)]
    rfl
  · intro hpos
    rw [topomap_rescale_eq]
    have h1 : ops.resize img (55 - 5 * level, 55 - 5 * level) ≠ none := by
      intro hcon
      rcases (hops img _ _).mp hcon with h | h <;> omega
    obtain ⟨r1, hr1⟩ := Option.ne_none_iff_exists'.mp h1
    rw [hr1, Option.some_bind]
    have h2 : ops.resize r1 img.size ≠ none := by
      intro hcon
      rcases (hops r1 img.width img.height).mp hcon with h | h <;> omega
    obtain ⟨r2, hr2⟩ := Option.ne_none_iff_exists'.mp h2
    rw [hr2, Option.map_some']
    exact Option.some_ne_none _

theorem rescale_fails_iff_level_out_of_range_witness :
    ((11 : Int) ≤ 12 → (55 : Int) - 5 * 12 ≤ 0 ∧ topomap_rescale toyOps imgOne 12 = none)
    ∧ ((0 : Int) < 55 - 5 * 12 → topomap_rescale toyOps imgOne 12 ≠ none) :=
  rescale_fails_iff_level_out_of_range toyOps imgOne 12 toyOps_resize_fails
    (by decide) (by decide)

/-- Claim C8: under PIL's size contracts (resize returns the requested
dimensions, blur keeps the input's dimensions), both degradation operators
return a pixel array whose shape equals the shape of the input image's array.
Non-mutation of the input is inherent in the embedding: the source calls only
non-mutating PIL/numpy APIs (`resize` and `filter` return new images,
`np.asarray` materializes a fresh array), so the operators are pure functions
of an immutable image value. -/
theorem degradation_preserves_shape (ops : PILOps) (img : PILImage) (level : Int)
    (hsize : ResizeGivesRequestedSize ops) (hblur : BlurPreservesSize ops) :
    (∀ arr, topomap_rescale ops img level = some arr → arr.shape = (asarray img).shape)
    ∧ ∀ arr, topomap_blur ops img level = some arr → arr.shape = (asarray img).shape := by
  constructor
  · intro arr harr
    rw [topomap_rescale_eq] at harr
    cases h1 : ops.resize img (55 - 5 * level, 55 - 5 * level) with
    | none => rw [h1] at harr; cases harr
    | some r1 =>
      rw [h1, Option.some_bind] at harr
      cases h2 : ops.resize r1 img.size with
      | none => rw [h2] at harr; cases harr
      | some r2 =>
        rw [h2, Option.map_some'] at harr
        obtain ⟨hw2, hh2⟩ := hsize r1 img.width img.height r2 h2
        injection harr with harr
        rw [← harr]
        simp [asarray, hw2, hh2]
  · intro arr harr
    rw [topomap_blur_eq] at harr
    injection harr with harr
    rw [← harr]
    obtain ⟨hw2, hh2⟩ := hblur img (2 * level + 2)
    simp [asarray, hw2, hh2]

theorem degradation_preserves_shape_witness :
    (∀ arr, topomap_rescale toyOps imgA 0 = some arr → arr.shape = (asarray imgA).shape)
    ∧ ∀ arr, topomap_blur toyOps imgA 0 = some arr → arr.shape = (asarray imgA).shape :=
  degradation_preserves_shape toyOps imgA 0 toyOps_resize_size toyOps_blur_size

/-- Claim C2 (amended): on a non-empty directory whose images all process to
curves of one length per level, the aggregation returns the elementwise column
mean of the (images × levels) curve table, one value per level in input order,
and — when `return_auc` is set and there are at least two levels — appends the
trapezoidal integral of the averaged curve over indices `0..len−1`.  (With a
single level, `sklearn.metrics.auc` raises instead: see the counterexample.) -/
theorem dataset_quality_colmean_auc (convert : String → Option PILImage) (ops : PILOps)
    (listdir : String → List String) (image_dir metric : String) (params : List Int)
    (return_auc : Bool) (output_dir : Option String)
    (curve : String → List ℚ) (figList : String → List SavedFig)
    (hne : listdir image_dir ≠ [])
    (hrun : ∀ p ∈ listdir image_dir,
        topomap_mse convert ops (image_dir ++ "/" ++ p) metric params output_dir
          = some (curve p, figList p))
    (hlen : ∀ p ∈ listdir image_dir, (curve p).length = params.length)
    (hauc : return_auc = true → 2 ≤ params.length) :
    (compute_topomap_image_quality convert ops listdir image_dir metric params return_auc output_dir
      = some (npMeanAxis0 ((listdir image_dir).map curve)
            ++ (if return_auc then
                  [npTrapz (npMeanAxis0 ((listdir image_dir).map curve)) (arangeQ params.length)]
                else []),
          ((listdir image_dir).map figList).flatten))
    ∧ (npMeanAxis0 ((listdir image_dir).map curve)).length = params.length
    ∧ ∀ j, j < params.length →
        (npMeanAxis0 ((listdir image_dir).map curve)).getD j 0
          = ((listdir image_dir).map fun p => (curve p).getD j 0).sum
              / (listdir image_dir).length := by
  have hcurves : ∀ r ∈ (listdir image_dir).map curve, r.length = params.length := by
    intro r hr
    obtain ⟨p, hp, rfl⟩ := List.mem_map.mp hr
    exact hlen p hp
  have hmapne : (listdir image_dir).map curve ≠ [] := by
    simpa using hne
  have hqlen : (npMeanAxis0 ((listdir image_dir).map curve)).length = params.length :=
    npMeanAxis0_length _ _ hmapne hcurves
  refine ⟨?_, hqlen, ?_⟩
  · have hres : optionMapList
        (fun image_path =>
          topomap_mse convert ops (image_dir ++ "/" ++ image_path) metric params output_dir)
        (listdir image_dir)
        = some ((listdir image_dir).map fun p => (curve p, figList p)) :=
      optionMapList_eq_map _ _ _ hrun
    have hie : (((listdir image_dir).map fun p => (curve p, figList p)).map Prod.fst).isEmpty
        = false := by
      rw [List.isEmpty_eq_false, List.map_map]
      simpa using hne
    simp only [compute_topomap_image_quality, hres, Option.some_bind, hie, Bool.false_eq_true,
      if_false, List.map_map]
    have hfst : (Prod.fst ∘ fun p => (curve p, figList p)) = curve := rfl
    have hsnd : (Prod.snd ∘ fun p => (curve p, figList p)) = figList := rfl
    rw [hfst, hsnd]
    cases return_auc with
    | false =>
      simp
      exact hne
    | true =>
      have hn2 : 2 ≤ params.length := hauc rfl
      rw [hqlen, sklearn_auc_arangeQ params.length _ hn2]
      simp
      exact hne
  · intro j hj
    rw [npMeanAxis0_getD _ params.length hmapne hcurves j hj, List.map_map, List.length_map]
    rfl

theorem dataset_quality_colmean_auc_witness :
    (compute_topomap_image_quality toyConvert toyOps toyListdir "imgs" "resize_mse" [0, 1] true none
      = some (npMeanAxis0 ((toyListdir "imgs").map toyCurve)
            ++ [npTrapz (npMeanAxis0 ((toyListdir "imgs").map toyCurve))
                  (arangeQ ([0, 1] : List Int).length)],
          ((toyListdir "imgs").map toyFigList).flatten))
    ∧ (npMeanAxis0 ((toyListdir "imgs").map toyCurve)).length = ([0, 1] : List Int).length
    ∧ ∀ j, j < ([0, 1] : List Int).length →
        (npMeanAxis0 ((toyListdir "imgs").map toyCurve)).getD j 0
          = ((toyListdir "imgs").map fun p => (toyCurve p).getD j 0).sum
              / (toyListdir "imgs").length :=
  dataset_quality_colmean_auc toyConvert toyOps toyListdir "imgs" "resize_mse" [0, 1] true none
    toyCurve toyFigList (by decide)
    (by
      intro p hp
      simp only [toyListdir, List.mem_cons, List.not_mem_nil, or_false] at hp
      rcases hp with rfl | rfl
      · exact toy_mse_A2
      · exact toy_mse_B2)
    (by
      intro p hp
      simp only [toyListdir, List.mem_cons, List.not_mem_nil, or_false] at hp
      rcases hp with rfl | rfl <;> decide)
    (fun _ => by decide)

/-- Claim C2 counterexample: with a single level and `return_auc` set, the
code does not append the (degenerate) integral — `sklearn.metrics.auc`
requires at least two points, so the whole call fails. -/
theorem dataset_auc_single_level_fails :
    compute_topomap_image_quality toyConvert toyOps toyListdir "imgs" "resize_mse" [0] true none
      = none := by
  simp only [compute_topomap_image_quality, toyListdir, optionMapList,
    toy_mse_A1, toy_mse_B1, Option.some_bind, Option.map_some',
    List.map_cons, List.map_nil, List.isEmpty_cons, Bool.false_eq_true, if_false]
  norm_num [npMeanAxis0, sklearn_auc, arangeQ, npDiff, npTrapz, List.range_succ, List.range_zero]

/-- Claim C5: for levels `[0, 1]` and two images whose per-level MSE curves
are `[2, 4]` and `[6, 8]`, aggregation without AUC returns `[4, 6]` and with
AUC returns `[4, 6, 5]`; and the AUC of a constant curve `[c, c, c]` over
indices `[0, 1, 2]` is `2·c`. -/
theorem dataset_aggregation_example :
    compute_topomap_image_quality toyConvert toyOps toyListdir "imgs" "resize_mse" [0, 1] false none
      = some ([4, 6], [])
    ∧ compute_topomap_image_quality toyConvert toyOps toyListdir "imgs" "resize_mse" [0, 1] true none
      = some ([4, 6, 5], [])
    ∧ topomap_mse toyConvert toyOps "imgs/A.pdf" "resize_mse" [0, 1] none = some ([2, 4], [])
    ∧ topomap_mse toyConvert toyOps "imgs/B.pdf" "resize_mse" [0, 1] none = some ([6, 8], [])
    ∧ ∀ c : ℚ, sklearn_auc (arangeQ 3) [c, c, c] = some (2 * c) := by
  refine ⟨?_, ?_, toy_mse_A2, toy_mse_B2, ?_⟩
  · simp only [compute_topomap_image_quality, toyListdir, optionMapList,
      toy_mse_A2, toy_mse_B2, Option.some_bind, Option.map_some',
      List.map_cons, List.map_nil, List.isEmpty_cons, Bool.false_eq_true, if_false]
    norm_num [npMeanAxis0, List.range_succ, List.range_zero]
  · simp only [compute_topomap_image_quality, toyListdir, optionMapList,
      toy_mse_A2, toy_mse_B2, Option.some_bind, Option.map_some',
      List.map_cons, List.map_nil, List.isEmpty_cons, Bool.false_eq_true, if_false]
    norm_num [npMeanAxis0, sklearn_auc, arangeQ, npDiff, npTrapz, List.range_succ,
      List.range_zero]
  · intro c
    rw [sklearn_auc_arangeQ 3 [c, c, c] (by norm_num)]
    have ha : arangeQ 3 = [0, 1, 2] := by
      norm_num [arangeQ, List.range_succ]
    rw [ha]
    have hz : npTrapz [c, c, c] [0, 1, 2] = 2 * c := by
      norm_num [npTrapz]
      ring
    rw [hz]

/-- Claim C9 counterexample: with an empty level list and an output directory,
no comparison document is persisted — `plt.subplots(1, 1)` returns a bare
`Axes` object and the source's `axes[0]` indexing fails before anything is
saved, so the call returns no result at all instead of one single-panel
document. -/
theorem figure_export_empty_levels :
    topomap_mse toyConvert toyOps "one.pdf" "resize_mse" [] (some "out") = none := by
  rw [topomap_mse, toyConvert_One]
  norm_num

/-- Claim C9 (amended): with an output directory and a non-empty level list,
a successful `topomap_mse` call persists exactly one comparison document into
that directory, named `<original file name without its four-character
extension>_<metric>.pdf`, whose panels are the reference image followed by one
degraded image per level (`len(levels) + 1` panels in total). -/
theorem figure_export_one_document (convert : String → Option PILImage) (ops : PILOps)
    (image_path metric stem d : String) (img : PILImage) (params : List Int)
    (errs : List ℚ) (saved : List SavedFig)
    (hconv : convert image_path = some img)
    (hne : params ≠ [])
    (hbase : pyBasename image_path = stem.toList ++ ['.', 'p', 'd', 'f'])
    (hout : topomap_mse convert ops image_path metric params (some d) = some (errs, saved)) :
    ∃ degraded : List NDArr,
      saved = [⟨d, stem ++ "_" ++ metric ++ ".pdf", asarray img :: degraded⟩]
      ∧ degraded.length = params.length := by
  have hname : savedFigName image_path metric = stem ++ "_" ++ metric ++ ".pdf" := by
    rw [savedFigName, hbase, pyDropLast4_append_pdf]
    rfl
  cases params with
  | nil => cases hne rfl
  | cons p ps =>
    simp only [topomap_mse, hconv, List.isEmpty_cons, Bool.and_false, Bool.false_eq_true,
      if_false] at hout
    cases hstep : optionMapList
        (fun param =>
          ((if metric = "resize_mse" then some (topomap_rescale ops)
            else if metric = "blur_mse" then some (topomap_blur ops)
            else none).bind fun fn => fn img param).map
            fun arr_img_changed =>
              (npMean (u8sqDiff (asarray img).data arr_img_changed.data), arr_img_changed))
        (p :: ps) with
    | none => rw [hstep] at hout; cases hout
    | some step =>
      rw [hstep] at hout
      injection hout with hout
      injection hout with hout1 hout2
      refine ⟨step.map Prod.snd, ?_, ?_⟩
      · rw [← hout2, hname]
      · rw [List.length_map, List.length_cons]
        exact length_of_optionMapList _ _ _ hstep

theorem figure_export_one_document_witness :
    ∃ degraded : List NDArr,
      [(⟨"out", "one_resize_mse.pdf", [asarray imgOne, ⟨[1, 3, 3], [16, 16, 16]⟩]⟩ : SavedFig)]
        = [⟨"out", "one" ++ "_" ++ "resize_mse" ++ ".pdf", asarray imgOne :: degraded⟩]
      ∧ degraded.length = ([0] : List Int).length :=
  figure_export_one_document toyConvert toyOps "one.pdf" "resize_mse" "one" "out" imgOne [0]
    [0] [⟨"out", "one_resize_mse.pdf", [asarray imgOne, ⟨[1, 3, 3], [16, 16, 16]⟩]⟩]
    toyConvert_One (by decide) (by decide) toy_mse_One_fig

end ANNTopomaps
